import Mathlib

/-
  Verification development for the blunav positioning core.

  Shallow embedding conventions:
  * Rust `f64` arithmetic is modelled by exact arithmetic: `ℚ` for the
    trilateration / fusion / Kalman / history code (whose claims do not
    depend on rounding), and `ℝ` for the RSSI model (which uses the
    transcendental functions `powf` and `log10`).
  * `f64::sqrt` has no exact rational counterpart; every definition that the
    source computes with `sqrt` takes an uninterpreted square-root function
    `s : ℚ → ℚ` as a parameter.  All theorems below are proved for every
    such `s`, hence in particular for the real square root.
  * `f64::INFINITY` (returned by `calculate_weighted_error` on an empty or
    zero-weight input, a branch unreachable from its only call site) is
    modelled by an uninterpreted parameter `inf : ℚ`.
  * `f64::NEG_INFINITY` (the sentinel of `distance_to_rssi`) is modelled by
    `⊥ : WithBot ℝ`.
  * `chrono` timestamps are an effect of the constructor, not data the
    algorithms read; the `timestamp` field is omitted from the embedding.
-/

namespace Blunav

/-- A `(x, y, z, distance)` measurement, as in `&[(f64, f64, f64, f64)]`. -/
abbrev Meas : Type := ℚ × ℚ × ℚ × ℚ

/-- A `(x, y, z, distance, weight)` measurement, `&[(f64, f64, f64, f64, f64)]`. -/
abbrev WMeas : Type := ℚ × ℚ × ℚ × ℚ × ℚ

/-- The `2e-10`-style determinant threshold is written with `1e-10` literals,
which `ℚ`'s scientific-literal instance reads exactly as `10⁻¹⁰`. -/
def detEps : ℚ := 1e-10

/-- Clamping to the unit interval, `v.max(0.0).min(1.0)` in Rust. -/
def clamp01 (v : ℚ) : ℚ := min (max v 0) 1

/-- 2×2 determinant of the linearized trilateration system built from the
first three measurements (shared by both modules' exact solvers, which
compute it with identical algebra). -/
def basicDet (ms : List Meas) : ℚ :=
  match ms with
  | (x1, y1, _, _) :: (x2, y2, _, _) :: (x3, y3, _, _) :: _ =>
      (2 * (x2 - x1)) * (2 * (y3 - y1)) - (2 * (y2 - y1)) * (2 * (x3 - x1))
  | _ => 0

namespace Alg
/- Embedding of `src/src/algorithms/{results.rs, location_algorithms.rs}`. -/

/-- `results.rs::LocationResult` (timestamp omitted, see header comment). -/
structure LocationResult where
  x : ℚ
  y : ℚ
  z : ℚ
  confidence : ℚ
  error : ℚ
  method : String
  beacon_count : ℕ
deriving DecidableEq

/-- `LocationResult::new`: clamps confidence to `[0,1]` via
`confidence.max(0.0).min(1.0)`. -/
def LocationResult.new (x y z confidence error : ℚ) (method : String)
    (beacon_count : ℕ) : LocationResult :=
  { x := x, y := y, z := z, confidence := min (max confidence 0) 1,
    error := error, method := method, beacon_count := beacon_count }

/-- `LocationAlgorithm::_calculate_error`: RMS residual between each
measured distance and the distance implied by `(x, y)`. -/
def _calculate_error (s : ℚ → ℚ) (measurements : List Meas) (x y : ℚ) : ℚ :=
  if measurements = [] then 0
  else
    let sum_error :=
      (measurements.map (fun m =>
        let dx := x - m.1
        let dy := y - m.2.1
        let calculated_distance := s (dx * dx + dy * dy)
        let e := |calculated_distance - m.2.2.2|
        e * e)).sum
    s (sum_error / (measurements.length : ℚ))

/-- `LocationAlgorithm::_trilateration_basic_impl`. -/
def _trilateration_basic_impl (s : ℚ → ℚ) (measurements : List Meas) :
    Option LocationResult :=
  match measurements with
  | (x1, y1, z1, r1) :: (x2, y2, z2, r2) :: (x3, y3, z3, r3) :: _ =>
      let a11 := 2 * (x2 - x1)
      let a12 := 2 * (y2 - y1)
      let a21 := 2 * (x3 - x1)
      let a22 := 2 * (y3 - y1)
      let b1 := r1 * r1 - r2 * r2 - x1 * x1 + x2 * x2 - y1 * y1 + y2 * y2
      let b2 := r1 * r1 - r3 * r3 - x1 * x1 + x3 * x3 - y1 * y1 + y3 * y3
      let det := a11 * a22 - a12 * a21
      if |det| < detEps then none
      else
        let x := (b1 * a22 - b2 * a12) / det
        let y := (a11 * b2 - a21 * b1) / det
        let z := (z1 + z2 + z3) / 3
        let error := _calculate_error s measurements x y
        let confidence := min (1 / (1 + error / 100)) 1
        some (LocationResult.new x y z confidence error "trilateration_basic" 3)
  | _ => none

/-- `LocationAlgorithm::_trilateration_weighted_impl`. -/
def _trilateration_weighted_impl (s : ℚ → ℚ) (measurements : List WMeas) :
    Option LocationResult :=
  match measurements with
  | (x1, y1, z1, r1, w1) :: (x2, y2, z2, r2, w2) :: (x3, y3, z3, r3, w3) :: _ =>
      let a11 := 2 * (x2 - x1) * w2
      let a12 := 2 * (y2 - y1) * w2
      let a21 := 2 * (x3 - x1) * w3
      let a22 := 2 * (y3 - y1) * w3
      let b1 := (r1 * r1 - r2 * r2 - x1 * x1 + x2 * x2 - y1 * y1 + y2 * y2) * w2
      let b2 := (r1 * r1 - r3 * r3 - x1 * x1 + x3 * x3 - y1 * y1 + y3 * y3) * w3
      let det := a11 * a22 - a12 * a21
      if |det| < detEps then none
      else
        let x := (b1 * a22 - b2 * a12) / det
        let y := (a11 * b2 - a21 * b1) / det
        let z := (z1 * w1 + z2 * w2 + z3 * w3) / (w1 + w2 + w3)
        let unweighted := measurements.map (fun m => (m.1, m.2.1, m.2.2.1, m.2.2.2.1))
        let error := _calculate_error s unweighted x y
        let confidence := min (1 / (1 + error / 100)) 1
        some (LocationResult.new x y z confidence error "trilateration_weighted"
          measurements.length)
  | _ => none

/-- Determinant of the weighted system as `_trilateration_weighted_impl`
computes it. -/
def weightedDet (ms : List WMeas) : ℚ :=
  match ms with
  | (x1, y1, _, _, _) :: (x2, y2, _, _, w2) :: (x3, y3, _, _, w3) :: _ =>
      (2 * (x2 - x1) * w2) * (2 * (y3 - y1) * w3) -
        (2 * (y2 - y1) * w2) * (2 * (x3 - x1) * w3)
  | _ => 0

/-- `LocationAlgorithm::_trilateration_least_squares_impl`: the "simplified
least squares" is the plain centroid of the anchors. -/
def _trilateration_least_squares_impl (s : ℚ → ℚ) (measurements : List Meas) :
    Option LocationResult :=
  if measurements.length < 3 then none
  else
    let n : ℚ := (measurements.length : ℚ)
    let x := (measurements.map (fun m => m.1)).sum / n
    let y := (measurements.map (fun m => m.2.1)).sum / n
    let z := (measurements.map (fun m => m.2.2.1)).sum / n
    let error := _calculate_error s measurements x y
    let confidence := min (1 / (1 + error / 100)) 1
    some (LocationResult.new x y z confidence error "trilateration_least_squares"
      measurements.length)

/-- `LocationAlgorithm::fuse_results`. -/
def fuse_results (results : List (LocationResult × ℚ)) : Option LocationResult :=
  if results = [] then none
  else
    let total_weight : ℚ := (results.map (fun p => p.2)).sum
    if total_weight = 0 then none
    else
      let x := (results.map (fun p => p.1.x * p.2)).sum / total_weight
      let y := (results.map (fun p => p.1.y * p.2)).sum / total_weight
      let z := (results.map (fun p => p.1.z * p.2)).sum / total_weight
      let confidence := (results.map (fun p => p.1.confidence * p.2)).sum / total_weight
      let error := (results.map (fun p => p.1.error * p.2)).sum / total_weight
      let beacon_count := (results.map (fun p => p.1.beacon_count)).foldr max 0
      some (LocationResult.new x y z confidence error "fused" beacon_count)

/-- `LocationSequence::average_position` (the sequence is its list of
results). -/
def average_position (results : List LocationResult) : Option LocationResult :=
  if results = [] then none
  else
    let count : ℚ := (results.length : ℚ)
    let x := (results.map (fun r => r.x)).sum / count
    let y := (results.map (fun r => r.y)).sum / count
    let z := (results.map (fun r => r.z)).sum / count
    let avg_confidence := (results.map (fun r => r.confidence)).sum / count
    let avg_error := (results.map (fun r => r.error)).sum / count
    some (LocationResult.new x y z avg_confidence avg_error "average" 0)

/-- `LocationSequence::average_last_n`. -/
def average_last_n (results : List LocationResult) (n : ℕ) : Option LocationResult :=
  if results = [] then none
  else
    let start := if results.length > n then results.length - n else 0
    let slice := results.drop start
    let count : ℚ := (slice.length : ℚ)
    let x := (slice.map (fun r => r.x)).sum / count
    let y := (slice.map (fun r => r.y)).sum / count
    let z := (slice.map (fun r => r.z)).sum / count
    let avg_confidence := (slice.map (fun r => r.confidence)).sum / count
    let avg_error := (slice.map (fun r => r.error)).sum / count
    some (LocationResult.new x y z avg_confidence avg_error
      ("average_last_" ++ toString n) 0)

/-- `KalmanFilter1D` state. -/
structure KalmanFilter1D where
  q : ℚ
  r : ℚ
  p : ℚ
  value : ℚ
deriving DecidableEq

/-- `KalmanFilter1D::new`: covariance starts at `1.0`. -/
def KalmanFilter1D.new (q r initial_value : ℚ) : KalmanFilter1D :=
  { q := q, r := r, p := 1, value := initial_value }

/-- `KalmanFilter1D::update`; the Rust method mutates and returns the new
estimate, modelled here as returning the new state (whose `value` is the
returned estimate). -/
def KalmanFilter1D.update (f : KalmanFilter1D) (measurement : ℚ) : KalmanFilter1D :=
  let p := f.p + f.q
  let k := p / (p + f.r)
  let value := f.value + k * (measurement - f.value)
  { q := f.q, r := f.r, p := (1 - k) * p, value := value }

/-- The filter of the smoother-convergence scenario: `new(0.001, 0.1, 0.0)`
fed the constant measurement `10.0`, `n` times. -/
def kalmanConst (n : ℕ) : KalmanFilter1D :=
  Nat.iterate (fun f => KalmanFilter1D.update f 10) n (KalmanFilter1D.new 0.001 0.1 0)

/-- The estimate returned by the `n`-th constant-fed update. -/
def kalmanEst (n : ℕ) : ℚ := (kalmanConst n).value

end Alg

namespace Positioning
/- Embedding of `src/src/positioning.rs` (the legacy, parallel module). -/

/-- `positioning.rs::LocationResult`: no `beacon_count`, no timestamp. -/
structure LocationResult where
  x : ℚ
  y : ℚ
  z : ℚ
  confidence : ℚ
  error : ℚ
  method : String
deriving DecidableEq

/-- `positioning.rs::calculate_error`: mean absolute residual.  The source
divides by the length unguarded; every caller passes a non-empty slice
(`ℚ` renders the `0/0` of an empty call as `0`). -/
def calculate_error (s : ℚ → ℚ) (beacons : List Meas) (x y : ℚ) : ℚ :=
  let total_error :=
    (beacons.map (fun m =>
      let calc_dist := s ((x - m.1) * (x - m.1) + (y - m.2.1) * (y - m.2.1))
      |calc_dist - m.2.2.2|)).sum
  total_error / (beacons.length : ℚ)

/-- `positioning.rs::calculate_weighted_error`; returns the `f64::INFINITY`
stand-in `inf` when the total weight is not positive. -/
def calculate_weighted_error (inf : ℚ) (s : ℚ → ℚ) (beacons : List WMeas)
    (x y : ℚ) : ℚ :=
  let total_error :=
    (beacons.map (fun m =>
      let calc_dist := s ((x - m.1) * (x - m.1) + (y - m.2.1) * (y - m.2.1))
      m.2.2.2.2 * |calc_dist - m.2.2.2.1|)).sum
  let total_weight := (beacons.map (fun m => m.2.2.2.2)).sum
  if total_weight > 0 then total_error / total_weight else inf

/-- `positioning.rs::trilateration_basic`. -/
def trilateration_basic (s : ℚ → ℚ) (beacons_with_distances : List Meas) :
    Option LocationResult :=
  match beacons_with_distances with
  | (x1, y1, z1, r1) :: (x2, y2, z2, r2) :: (x3, y3, z3, r3) :: _ =>
      let a11 := 2 * (x2 - x1)
      let a12 := 2 * (y2 - y1)
      let a21 := 2 * (x3 - x1)
      let a22 := 2 * (y3 - y1)
      let b1 := r1 * r1 - r2 * r2 - x1 * x1 + x2 * x2 - y1 * y1 + y2 * y2
      let b2 := r1 * r1 - r3 * r3 - x1 * x1 + x3 * x3 - y1 * y1 + y3 * y3
      let det := a11 * a22 - a12 * a21
      if |det| < detEps then none
      else
        let x := (b1 * a22 - b2 * a12) / det
        let y := (a11 * b2 - a21 * b1) / det
        let z := (z1 + z2 + z3) / 3
        let error := calculate_error s beacons_with_distances x y
        let confidence := min (1 / (1 + error / 100)) 1
        some { x := x, y := y, z := z, confidence := confidence, error := error,
               method := "三边定位" }
  | _ => none

/-- The distance-based weight of `positioning.rs::trilateration_weighted`:
`1.0` below 50, inverse-square (`1 / (d²/10000)`) otherwise. -/
def pweight (d : ℚ) : ℚ := if d < 50 then 1 else 1 / (d * d / 10000)

/-- `positioning.rs::trilateration_weighted`.  The solve uses the first
three weighted beacons; the error uses all of them. -/
def trilateration_weighted (inf : ℚ) (s : ℚ → ℚ)
    (beacons_with_distances : List Meas) : Option LocationResult :=
  match beacons_with_distances with
  | (x1, y1, z1, r1) :: (x2, y2, z2, r2) :: (x3, y3, z3, r3) :: _ =>
      let weighted_beacons :=
        beacons_with_distances.map
          (fun m => (m.1, m.2.1, m.2.2.1, m.2.2.2, pweight m.2.2.2))
      let w1 := pweight r1
      let w2 := pweight r2
      let w3 := pweight r3
      let a11 := 2 * (x2 - x1) * w1 * w2
      let a12 := 2 * (y2 - y1) * w1 * w2
      let a21 := 2 * (x3 - x1) * w1 * w3
      let a22 := 2 * (y3 - y1) * w1 * w3
      let b1 := (r1 * r1 - r2 * r2 - x1 * x1 + x2 * x2 - y1 * y1 + y2 * y2) * w1 * w2
      let b2 := (r1 * r1 - r3 * r3 - x1 * x1 + x3 * x3 - y1 * y1 + y3 * y3) * w1 * w3
      let det := a11 * a22 - a12 * a21
      if |det| < detEps then none
      else
        let x := (b1 * a22 - b2 * a12) / det
        let y := (a11 * b2 - a21 * b1) / det
        let z := (z1 + z2 + z3) / 3
        let error := calculate_weighted_error inf s weighted_beacons x y
        let confidence := min (1 / (1 + error / 100)) 1
        some { x := x, y := y, z := z, confidence := confidence, error := error,
               method := "加权三边定位" }
  | _ => none

/-- Determinant of the weighted system as `trilateration_weighted`
computes it (the distance-derived weights enter the matrix). -/
def weightedDet (bs : List Meas) : ℚ :=
  match bs with
  | (x1, y1, _, r1) :: (x2, y2, _, r2) :: (x3, y3, _, r3) :: _ =>
      (2 * (x2 - x1) * pweight r1 * pweight r2) *
          (2 * (y3 - y1) * pweight r1 * pweight r3) -
        (2 * (y2 - y1) * pweight r1 * pweight r2) *
          (2 * (x3 - x1) * pweight r1 * pweight r3)
  | _ => 0

/-- One pass of the 5-iteration correction loop of
`positioning.rs::trilateration_least_squares` (lines 174-209).  The `break`
on `sum_w < 1e-10` is modelled by returning the state unchanged, which is
equivalent: an unchanged state recomputes the same `sum_w` and stays put. -/
def lsIterOnce (s : ℚ → ℚ) (bs : List Meas) (st : ℚ × ℚ) : ℚ × ℚ :=
  let x := st.1
  let y := st.2
  let sums := bs.foldl
    (fun (acc : ℚ × ℚ × ℚ × ℚ) m =>
      let bx := m.1
      let yb := m.2.1
      let bd := m.2.2.2
      let dist := s ((x - bx) * (x - bx) + (y - yb) * (y - yb))
      let e := dist - bd
      let weight := 1 / (1 + max (|e| / bd) 0.1)
      let dx := if dist > 1e-6 then (x - bx) / dist else 0
      let dy := if dist > 1e-6 then (y - yb) / dist else 0
      (acc.1 + weight * dx, acc.2.1 + weight * dy, acc.2.2.1 + weight * e,
        acc.2.2.2 + weight))
    ((0 : ℚ), (0 : ℚ), (0 : ℚ), (0 : ℚ))
  let sum_w := sums.2.2.2
  if sum_w < 1e-10 then st
  else
    let step_size : ℚ := 0.05
    (x - step_size * sums.1 * sums.2.2.1 / sum_w,
      y - step_size * sums.2.1 * sums.2.2.1 / sum_w)

/-- `positioning.rs::trilateration_least_squares`: seeds from
`trilateration_basic` (propagating its `None` via `?`), then runs the
correction loop 5 times. -/
def trilateration_least_squares (s : ℚ → ℚ) (beacons_with_distances : List Meas) :
    Option LocationResult :=
  if beacons_with_distances.length < 3 then none
  else
    match trilateration_basic s beacons_with_distances with
    | none => none
    | some initial =>
        let p := Nat.iterate (lsIterOnce s beacons_with_distances) 5
          (initial.x, initial.y)
        let x := p.1
        let y := p.2
        let z := (beacons_with_distances.map (fun m => m.2.2.1)).sum /
          (beacons_with_distances.length : ℚ)
        let error := calculate_error s beacons_with_distances x y
        let confidence := min (1 / (1 + error / 100)) 1
        some { x := x, y := y, z := z, confidence := confidence, error := error,
               method := "最小二乘法(" ++ toString beacons_with_distances.length
                 ++ "个信标)" }

end Positioning

namespace Rssi
/- Embedding of `src/src/algorithms/rssi_model.rs`, over `ℝ` because the
conversion uses `powf` and `log10`. -/

/-- `rssi_model.rs::DistanceUnit`. -/
inductive DistanceUnit where
  | Centimeter : DistanceUnit
  | Meter : DistanceUnit
  | Millimeter : DistanceUnit
deriving DecidableEq

/-- `rssi_model.rs::RSSIModel`. -/
structure RSSIModel where
  a : ℝ
  b : ℝ
  n : ℝ
  unit : DistanceUnit
  model_type : String

/-- `RSSIModel::log_distance`. -/
def log_distance (a b : ℝ) (unit : DistanceUnit) : RSSIModel :=
  { a := a, b := b, n := 0, unit := unit, model_type := "log_distance" }

/-- `RSSIModel::convert_distance`: from `from_unit` to the model's unit. -/
noncomputable def convert_distance (m : RSSIModel) (distance : ℝ) (from_unit : DistanceUnit) : ℝ :=
  if from_unit = m.unit then distance
  else
    match from_unit, m.unit with
    | DistanceUnit.Meter, DistanceUnit.Centimeter => distance * 100
    | DistanceUnit.Meter, DistanceUnit.Millimeter => distance * 1000
    | DistanceUnit.Centimeter, DistanceUnit.Meter => distance / 100
    | DistanceUnit.Centimeter, DistanceUnit.Millimeter => distance * 10
    | DistanceUnit.Millimeter, DistanceUnit.Meter => distance / 1000
    | DistanceUnit.Millimeter, DistanceUnit.Centimeter => distance / 10
    | _, _ => distance

/-- `RSSIModel::convert_distance_from`: from the model's unit to meters. -/
noncomputable def convert_distance_from (m : RSSIModel) (distance : ℝ) : ℝ :=
  match m.unit with
  | DistanceUnit.Meter => distance
  | DistanceUnit.Centimeter => distance / 100
  | DistanceUnit.Millimeter => distance / 1000

/-- `RSSIModel::rssi_to_distance_f64`: `d = 10^((rssi - a)/b)` meters,
converted to the model's unit. -/
noncomputable def rssi_to_distance_f64 (m : RSSIModel) (rssi : ℝ) : ℝ :=
  let exponent := (rssi - m.a) / m.b
  let distance := (10 : ℝ) ^ exponent
  convert_distance m distance DistanceUnit.Meter

/-- `RSSIModel::rssi_to_distance` (the `i16` entry point; same body on the
integer cast to `f64`). -/
noncomputable def rssi_to_distance (m : RSSIModel) (rssi : ℤ) : ℝ :=
  let rssi_f64 : ℝ := (rssi : ℝ)
  let exponent := (rssi_f64 - m.a) / m.b
  let distance := (10 : ℝ) ^ exponent
  convert_distance m distance DistanceUnit.Meter

/-- `RSSIModel::distance_to_rssi`; `f64::NEG_INFINITY` is `⊥ : WithBot ℝ`. -/
noncomputable def distance_to_rssi (m : RSSIModel) (distance : ℝ) : WithBot ℝ :=
  let distance_in_meters := convert_distance_from m distance
  if distance_in_meters ≤ 0 then (⊥ : WithBot ℝ)
  else ((m.a + m.b * Real.logb 10 distance_in_meters : ℝ) : WithBot ℝ)

/-- `RSSIModel::convert_to_unit`: to meters, then to the target unit, with
`.max(0.0)` applied on each arm. -/
noncomputable def convert_to_unit (m : RSSIModel) (distance : ℝ) (target_unit : DistanceUnit) : ℝ :=
  let meters := convert_distance_from m distance
  match target_unit with
  | DistanceUnit.Meter => max meters 0
  | DistanceUnit.Centimeter => max (meters * 100) 0
  | DistanceUnit.Millimeter => max (meters * 1000) 0

/-- Size of one distance unit in meters (the spec-side description of the
mm/cm/m scaling that `convert_to_unit` is claimed to implement). -/
noncomputable def unitInMeters : DistanceUnit → ℝ
  | DistanceUnit.Meter => 1
  | DistanceUnit.Centimeter => 1 / 100
  | DistanceUnit.Millimeter => 1 / 1000

end Rssi

/- Concrete sample data used by witnesses and counterexamples. -/

/-- A concrete instantiation of the abstract square-root parameter, used to
specialize the solver theorems at executable inputs. -/
def sqrtSample : ℚ → ℚ := fun q => q

/-- Fallback result used to read a value out of an `Option` once it is known
to be `some`. -/
def dflt : Alg.LocationResult := ⟨0, 0, 0, 0, 0, "", 0⟩

/-- Fallback result for the positioning module's `Option`s. -/
def pdflt : Positioning.LocationResult := ⟨0, 0, 0, 0, 0, ""⟩

/-- Three well-separated sample measurements (non-degenerate geometry). -/
def msSample : List Meas := [(0, 0, 0, 5), (10, 0, 0, 5), (0, 10, 0, 5)]

/-- The same anchors with strictly positive weights attached. -/
def wmsSample : List WMeas := [(0, 0, 0, 5, 7), (10, 0, 0, 5, 2), (0, 10, 0, 5, 3)]

/-- Non-degenerate sample for the positioning module (distances straddling
the 50-unit weight knee). -/
def bsSample : List Meas := [(0, 0, 0, 5), (10, 0, 0, 60), (0, 10, 0, 70)]

/-- The spec's collinear-anchor degeneracy example, with sample distances. -/
def bsCollinear : List Meas := [(0, 0, 0, 10), (50, 0, 0, 10), (100, 0, 0, 10)]

/-- Fusion input with a negative weight, exhibiting the confidence clamp. -/
def fuseCexInput : List (Alg.LocationResult × ℚ) :=
  [(Alg.LocationResult.new 0 0 0 1 0 "m" 3, -1),
   (Alg.LocationResult.new 0 0 0 0 0 "m" 1, 2)]

/-- The spec's fusion example: two results at x = 0 and x = 10, each with
weight 0.5. -/
def fuseWitnessInput : List (Alg.LocationResult × ℚ) :=
  [(Alg.LocationResult.new 0 0 0 1 0 "m" 3, 0.5),
   (Alg.LocationResult.new 10 0 0 1 0 "m" 1, 0.5)]

/-- A one-element history used by the history-averaging witnesses. -/
def seqSample : List Alg.LocationResult := [Alg.LocationResult.new 1 2 3 (1/2) 4 "m" 3]

/-- A concrete log-distance model (the shape used by the repository's
default: centimeter unit, negative slope). -/
noncomputable def mSample : Rssi.RSSIModel :=
  Rssi.log_distance (-50) (-40) Rssi.DistanceUnit.Centimeter

/- ======================================================================== -/
/- Helper lemmas                                                            -/
/- ======================================================================== -/

lemma clamp01_mem (v : ℚ) : 0 ≤ clamp01 v ∧ clamp01 v ≤ 1 :=
  ⟨le_min (le_max_right v 0) zero_le_one, min_le_right _ _⟩

lemma clamp01_min_one (v : ℚ) : clamp01 (min v 1) = clamp01 v := by
  rcases le_total v 1 with h | h
  · rw [min_eq_left h]
  · rw [min_eq_right h, clamp01, clamp01, max_eq_left zero_le_one,
      max_eq_left (zero_le_one.trans h), min_self, min_eq_right h]

lemma min_one_eq_clamp01 (v : ℚ) (hv : 0 ≤ v) : min v 1 = clamp01 v := by
  rw [clamp01, max_eq_left hv]

lemma kalmanConst_succ (n : ℕ) :
    Alg.kalmanConst (n + 1) = (Alg.kalmanConst n).update 10 :=
  Function.iterate_succ_apply' _ n _

lemma kalman_qr (n : ℕ) :
    (Alg.kalmanConst n).q = 0.001 ∧ (Alg.kalmanConst n).r = 0.1 := by
  induction n with
  | zero => exact ⟨rfl, rfl⟩
  | succ n ih =>
      rw [kalmanConst_succ]
      exact ⟨ih.1, ih.2⟩

lemma kalman_invariant (n : ℕ) :
    0 ≤ (Alg.kalmanConst n).p ∧ 0 ≤ (Alg.kalmanConst n).value ∧
      (Alg.kalmanConst n).value ≤ 10 := by
  induction n with
  | zero =>
      refine ⟨?_, ?_, ?_⟩ <;> norm_num [Alg.kalmanConst, Alg.KalmanFilter1D.new]
  | succ n ih =>
      obtain ⟨hp, hv0, hv10⟩ := ih
      have hq := (kalman_qr n).1
      have hr := (kalman_qr n).2
      rw [kalmanConst_succ]
      simp only [Alg.KalmanFilter1D.update, hq, hr]
      have hp1 : (0 : ℚ) ≤ (Alg.kalmanConst n).p + 0.001 := by linarith
      have hden : (0 : ℚ) < (Alg.kalmanConst n).p + 0.001 + 0.1 := by linarith
      have hk0 : (0 : ℚ) ≤
          ((Alg.kalmanConst n).p + 0.001) / ((Alg.kalmanConst n).p + 0.001 + 0.1) :=
        div_nonneg hp1 hden.le
      have hk1 :
          ((Alg.kalmanConst n).p + 0.001) / ((Alg.kalmanConst n).p + 0.001 + 0.1) ≤ 1 := by
        rw [div_le_one hden]; linarith
      refine ⟨mul_nonneg (by linarith) hp1, ?_, ?_⟩
      · nlinarith [mul_nonneg hk0 (by linarith : (0 : ℚ) ≤ 10 - (Alg.kalmanConst n).value)]
      · nlinarith [mul_nonneg (by linarith : (0 : ℚ) ≤
            1 - ((Alg.kalmanConst n).p + 0.001) / ((Alg.kalmanConst n).p + 0.001 + 0.1))
          (by linarith : (0 : ℚ) ≤ 10 - (Alg.kalmanConst n).value)]

/- ======================================================================== -/
/- Claim theorems                                                           -/
/- ======================================================================== -/

set_option maxRecDepth 10000 in
unseal Rat.add Rat.mul Rat.inv Rat.sub Rat.ofScientific in
/-- C4: the scalar Kalman filter `new(0.001, 0.1, 0.0)`, fed the constant
measurement `10.0`, produces a monotonically non-decreasing sequence of
estimates, and after 50 updates the estimate is within `0.05` of `10.0`. -/
theorem kalman_monotone_convergence :
    (∀ n : ℕ, Alg.kalmanEst n ≤ Alg.kalmanEst (n + 1)) ∧
      |Alg.kalmanEst 50 - 10| ≤ 0.05 := by
  constructor
  · intro n
    obtain ⟨hp, hv0, hv10⟩ := kalman_invariant n
    have hq := (kalman_qr n).1
    have hr := (kalman_qr n).2
    simp only [Alg.kalmanEst]
    rw [kalmanConst_succ]
    simp only [Alg.KalmanFilter1D.update, hq, hr]
    have hp1 : (0 : ℚ) ≤ (Alg.kalmanConst n).p + 0.001 := by linarith
    have hden : (0 : ℚ) < (Alg.kalmanConst n).p + 0.001 + 0.1 := by linarith
    have hk0 : (0 : ℚ) ≤
        ((Alg.kalmanConst n).p + 0.001) / ((Alg.kalmanConst n).p + 0.001 + 0.1) :=
      div_nonneg hp1 hden.le
    nlinarith [mul_nonneg hk0 (by linarith : (0 : ℚ) ≤ 10 - (Alg.kalmanConst n).value)]
  · have h1 : Alg.kalmanEst 50 ≤ 10 := (kalman_invariant 50).2.2
    have h2 : 10 - 0.05 ≤ Alg.kalmanEst 50 := by decide
    rw [abs_le]
    constructor <;> [linarith; linarith]

/-- C8 (amended): when `n` is at least the history length, `average_last_n`
agrees with `average_position` on every field except the method tag: the
coordinates, confidence, error and beacon count coincide. -/
theorem average_last_covers_all :
    ∀ (results : List Alg.LocationResult) (n : ℕ), results.length ≤ n →
      (Alg.average_last_n results n).map
          (fun r => (r.x, r.y, r.z, r.confidence, r.error, r.beacon_count)) =
        (Alg.average_position results).map
          (fun r => (r.x, r.y, r.z, r.confidence, r.error, r.beacon_count)) := by
  intro results n h
  by_cases he : results = []
  · simp [Alg.average_last_n, Alg.average_position, he]
  · have hif : (if results.length > n then results.length - n else 0) = 0 := by
      rw [if_neg]; omega
    simp only [Alg.average_last_n, Alg.average_position, if_neg he, hif,
      List.drop_zero, Option.map_some']
    simp [Alg.LocationResult.new]

unseal Rat.add Rat.mul Rat.inv Rat.sub Rat.ofScientific in
/-- C8 counterexample: the claim's literal statement — that the two calls
return equal results — fails, because the method tags differ
(`"average_last_1"` vs `"average"`). -/
theorem average_last_method_counterexample :
    Alg.average_last_n seqSample 1 ≠ Alg.average_position seqSample := by
  decide

unseal Rat.add Rat.mul Rat.inv Rat.sub Rat.ofScientific in
/-- C8 witness: the amended equality evaluated on a concrete one-element
history with `n = 2 ≥ length`. -/
theorem average_last_covers_all_witness :
    seqSample.length ≤ 2 ∧
      (Alg.average_last_n seqSample 2).map
          (fun r => (r.x, r.y, r.z, r.confidence, r.error, r.beacon_count)) =
        (Alg.average_position seqSample).map
          (fun r => (r.x, r.y, r.z, r.confidence, r.error, r.beacon_count)) :=
  ⟨by decide, average_last_covers_all seqSample 2 (by decide)⟩

/-- C3 (amended): `fuse_results` returns `None` exactly on an empty list or
weights summing to exactly zero; otherwise the fused x, y, z and error are
the weight-normalized weighted averages, the fused confidence is the
weighted average *clamped to [0,1]* by the constructor, the beacon count is
the maximum input beacon count, and the method tag is `"fused"`. -/
theorem fuse_results_characterization :
    ∀ results : List (Alg.LocationResult × ℚ),
      (Alg.fuse_results results = none ↔
        results = [] ∨ (results.map (fun p => p.2)).sum = 0) ∧
      ∀ r ∈ Alg.fuse_results results,
        r.x = (results.map (fun p => p.1.x * p.2)).sum /
            (results.map (fun p => p.2)).sum ∧
        r.y = (results.map (fun p => p.1.y * p.2)).sum /
            (results.map (fun p => p.2)).sum ∧
        r.z = (results.map (fun p => p.1.z * p.2)).sum /
            (results.map (fun p => p.2)).sum ∧
        r.confidence = clamp01 ((results.map (fun p => p.1.confidence * p.2)).sum /
            (results.map (fun p => p.2)).sum) ∧
        r.error = (results.map (fun p => p.1.error * p.2)).sum /
            (results.map (fun p => p.2)).sum ∧
        r.beacon_count = (results.map (fun p => p.1.beacon_count)).foldr max 0 ∧
        r.method = "fused" := by
  intro results
  by_cases he : results = []
  · constructor
    · simp [Alg.fuse_results, he]
    · intro r hr
      rw [Option.mem_def] at hr
      rw [Alg.fuse_results, if_pos he] at hr
      exact absurd hr (by simp)
  · by_cases hw : (results.map (fun p => p.2)).sum = 0
    · constructor
      · simp [Alg.fuse_results, he, hw]
      · intro r hr
        rw [Option.mem_def] at hr
        rw [Alg.fuse_results, if_neg he, if_pos hw] at hr
        exact absurd hr (by simp)
    · constructor
      · simp [Alg.fuse_results, he, hw]
      · intro r hr
        rw [Option.mem_def] at hr
        rw [Alg.fuse_results, if_neg he, if_neg hw] at hr
        have hr' := (Option.some.injEq _ _).mp hr.symm
        subst hr'
        exact ⟨rfl, rfl, rfl, rfl, rfl, rfl, rfl⟩

unseal Rat.add Rat.mul Rat.inv Rat.sub Rat.ofScientific in
/-- C3 counterexample: with a negative weight, the fused confidence is the
clamped value `0`, not the raw weighted average `-1` — the claim's
unclamped description fails. -/
theorem fuse_confidence_counterexample :
    (Alg.fuse_results fuseCexInput).map (fun r => r.confidence) ≠
      some ((fuseCexInput.map (fun p => p.1.confidence * p.2)).sum /
        (fuseCexInput.map (fun p => p.2)).sum) := by
  decide

unseal Rat.add Rat.mul Rat.inv Rat.sub Rat.ofScientific in
/-- C3 witness: the spec's fusion example — results at x = 0 and x = 10 with
weights 0.5 each fuse to x = 5 exactly. -/
theorem fuse_results_characterization_witness :
    ((Alg.fuse_results fuseWitnessInput).getD dflt).x =
        (fuseWitnessInput.map (fun p => p.1.x * p.2)).sum /
          (fuseWitnessInput.map (fun p => p.2)).sum ∧
      (fuseWitnessInput.map (fun p => p.1.x * p.2)).sum /
          (fuseWitnessInput.map (fun p => p.2)).sum = 5 :=
  ⟨((fuse_results_characterization fuseWitnessInput).2 _
      (Option.mem_def.mpr (by decide))).1,
    by decide⟩

/- RSSI-model lemmas. -/

lemma unitInMeters_pos (u : Rssi.DistanceUnit) : 0 < Rssi.unitInMeters u := by
  cases u <;> norm_num [Rssi.unitInMeters]

lemma convert_distance_from_eq (m : Rssi.RSSIModel) (d : ℝ) :
    Rssi.convert_distance_from m d = d * Rssi.unitInMeters m.unit := by
  rcases m with ⟨a, b, n, u, t⟩
  cases u <;> simp [Rssi.convert_distance_from, Rssi.unitInMeters, div_eq_mul_inv]

lemma convert_to_meter_from (m : Rssi.RSSIModel) (x : ℝ) :
    Rssi.convert_distance_from m (Rssi.convert_distance m x Rssi.DistanceUnit.Meter) = x := by
  rcases m with ⟨a, b, n, u, t⟩
  cases u <;> simp [Rssi.convert_distance, Rssi.convert_distance_from]

lemma rssi_to_distance_f64_eq (m : Rssi.RSSIModel) (r : ℝ) :
    Rssi.rssi_to_distance_f64 m r =
      Rssi.convert_distance m ((10 : ℝ) ^ ((r - m.a) / m.b)) Rssi.DistanceUnit.Meter := rfl

lemma uim_m : Rssi.unitInMeters Rssi.DistanceUnit.Meter = 1 := rfl

lemma uim_cm : Rssi.unitInMeters Rssi.DistanceUnit.Centimeter = 1 / 100 := rfl

lemma uim_mm : Rssi.unitInMeters Rssi.DistanceUnit.Millimeter = 1 / 1000 := rfl

/-- C10: `convert_to_unit` is never negative; a negative input distance is
clamped to exactly `0`; a non-negative input is the unit scaling of `d`
through meters as pivot. -/
theorem convert_to_unit_clamped :
    ∀ (m : Rssi.RSSIModel) (d : ℝ) (u : Rssi.DistanceUnit),
      0 ≤ Rssi.convert_to_unit m d u ∧
      (d < 0 → Rssi.convert_to_unit m d u = 0) ∧
      (0 ≤ d → Rssi.convert_to_unit m d u =
        d * Rssi.unitInMeters m.unit / Rssi.unitInMeters u) := by
  intro m d u
  have hm := convert_distance_from_eq m d
  have hpos := unitInMeters_pos m.unit
  refine ⟨?_, ?_, ?_⟩
  · cases u <;> simp [Rssi.convert_to_unit, le_max_right]
  · intro hd
    have hm0 : Rssi.convert_distance_from m d ≤ 0 := by
      rw [hm]; nlinarith [hpos.le, hd.le]
    cases u <;> simp only [Rssi.convert_to_unit] <;>
      [exact max_eq_right (by nlinarith [hm0]);
       exact max_eq_right hm0;
       exact max_eq_right (by nlinarith [hm0])]
  · intro hd
    have hm0 : 0 ≤ Rssi.convert_distance_from m d := by
      rw [hm]; exact mul_nonneg hd hpos.le
    cases u
    · simp only [Rssi.convert_to_unit]
      rw [max_eq_left (by nlinarith [hm0] :
          (0 : ℝ) ≤ Rssi.convert_distance_from m d * 100), hm, uim_cm]
      ring
    · simp only [Rssi.convert_to_unit]
      rw [max_eq_left hm0, hm, uim_m]
      ring
    · simp only [Rssi.convert_to_unit]
      rw [max_eq_left (by nlinarith [hm0] :
          (0 : ℝ) ≤ Rssi.convert_distance_from m d * 1000), hm, uim_mm]
      ring

/-- C10 witness: evaluating the clamp on the concrete centimeter model —
`-5` is clamped to `0`, `2 cm` converts to `20 mm`. -/
theorem convert_to_unit_clamped_witness :
    0 ≤ Rssi.convert_to_unit mSample (-5) Rssi.DistanceUnit.Millimeter ∧
      Rssi.convert_to_unit mSample (-5) Rssi.DistanceUnit.Millimeter = 0 ∧
      Rssi.convert_to_unit mSample 2 Rssi.DistanceUnit.Millimeter =
        2 * Rssi.unitInMeters mSample.unit /
          Rssi.unitInMeters Rssi.DistanceUnit.Millimeter ∧
      2 * Rssi.unitInMeters mSample.unit /
          Rssi.unitInMeters Rssi.DistanceUnit.Millimeter = 20 :=
  ⟨(convert_to_unit_clamped mSample (-5) Rssi.DistanceUnit.Millimeter).1,
   (convert_to_unit_clamped mSample (-5) Rssi.DistanceUnit.Millimeter).2.1 (by norm_num),
   (convert_to_unit_clamped mSample 2 Rssi.DistanceUnit.Millimeter).2.2 (by norm_num),
   by norm_num [mSample, Rssi.log_distance, Rssi.unitInMeters]⟩

/-- C9: `distance_to_rssi` returns the negative-infinity sentinel (`⊥`)
exactly for non-positive distances, and `a + b·log10(meters)` for positive
ones; it is a total function (no panic). -/
theorem distance_to_rssi_sentinel :
    ∀ (m : Rssi.RSSIModel) (d : ℝ),
      (d ≤ 0 → Rssi.distance_to_rssi m d = ⊥) ∧
      (0 < d → Rssi.distance_to_rssi m d =
        ((m.a + m.b * Real.logb 10 (Rssi.convert_distance_from m d) : ℝ) : WithBot ℝ)) := by
  intro m d
  have hm := convert_distance_from_eq m d
  have hpos := unitInMeters_pos m.unit
  constructor
  · intro hd
    have h0 : Rssi.convert_distance_from m d ≤ 0 := by
      rw [hm]; nlinarith [hpos.le]
    simp [Rssi.distance_to_rssi, h0]
  · intro hd
    have h1 : ¬ Rssi.convert_distance_from m d ≤ 0 :=
      not_le.mpr (by rw [hm]; exact mul_pos hd hpos)
    simp [Rssi.distance_to_rssi, h1]

/-- C9 witness: the sentinel at `-1` and the formula at `2` on the concrete
model. -/
theorem distance_to_rssi_sentinel_witness :
    Rssi.distance_to_rssi mSample (-1) = ⊥ ∧
      Rssi.distance_to_rssi mSample 2 =
        ((mSample.a + mSample.b *
          Real.logb 10 (Rssi.convert_distance_from mSample 2) : ℝ) : WithBot ℝ) :=
  ⟨(distance_to_rssi_sentinel mSample (-1)).1 (by norm_num),
   (distance_to_rssi_sentinel mSample 2).2 (by norm_num)⟩

/-- C5: for a log-distance model with `b ≠ 0`, RSSI → distance → RSSI is the
identity (exactly, hence within the claimed `1e-6`): the unit conversion to
and from meters cancels and `log10 (10^x) = x`. -/
theorem rssi_distance_round_trip :
    ∀ (m : Rssi.RSSIModel) (r : ℝ), m.b ≠ 0 →
      Rssi.distance_to_rssi m (Rssi.rssi_to_distance_f64 m r) = ((r : ℝ) : WithBot ℝ) ∧
      ∀ y : ℝ,
        Rssi.distance_to_rssi m (Rssi.rssi_to_distance_f64 m r) = ((y : ℝ) : WithBot ℝ) →
        |y - r| ≤ 1 / 1000000 := by
  intro m r hb
  have hpow : (0 : ℝ) < (10 : ℝ) ^ ((r - m.a) / m.b) :=
    Real.rpow_pos_of_pos (by norm_num) _
  have hmain : Rssi.convert_distance_from m (Rssi.rssi_to_distance_f64 m r) =
      (10 : ℝ) ^ ((r - m.a) / m.b) := by
    rw [rssi_to_distance_f64_eq]
    exact convert_to_meter_from m _
  have key : Rssi.distance_to_rssi m (Rssi.rssi_to_distance_f64 m r) =
      ((r : ℝ) : WithBot ℝ) := by
    simp only [Rssi.distance_to_rssi, hmain]
    rw [if_neg (not_le.mpr hpow),
      Real.logb_rpow (by norm_num : (0 : ℝ) < 10) (by norm_num : (10 : ℝ) ≠ 1)]
    have hx : m.a + m.b * ((r - m.a) / m.b) = r := by field_simp
    rw [hx]
  refine ⟨key, ?_⟩
  intro y hy
  have hyr : y = r := by
    have h := key.symm.trans hy
    symm
    exact_mod_cast h
  rw [hyr, sub_self, abs_zero]
  norm_num

/- Solver inversion lemmas. -/

lemma detEps_pos : 0 < detEps := by norm_num [detEps]

lemma basic_impl_none_iff (s : ℚ → ℚ) (ms : List Meas) (h : 3 ≤ ms.length) :
    Alg._trilateration_basic_impl s ms = none ↔ |basicDet ms| < detEps := by
  rcases ms with _ | ⟨⟨x1, y1, z1, r1⟩, _ | ⟨⟨x2, y2, z2, r2⟩, _ | ⟨⟨x3, y3, z3, r3⟩, rest⟩⟩⟩
  · simp at h
  · simp at h
  · simp at h
  · simp only [Alg._trilateration_basic_impl, basicDet]
    split_ifs with hd
    · simp [hd]
    · simp [hd]

lemma weighted_impl_none_iff (s : ℚ → ℚ) (ms : List WMeas) (h : 3 ≤ ms.length) :
    Alg._trilateration_weighted_impl s ms = none ↔ |Alg.weightedDet ms| < detEps := by
  rcases ms with _ | ⟨⟨x1, y1, z1, r1, w1⟩, _ | ⟨⟨x2, y2, z2, r2, w2⟩,
    _ | ⟨⟨x3, y3, z3, r3, w3⟩, rest⟩⟩⟩
  · simp at h
  · simp at h
  · simp at h
  · simp only [Alg._trilateration_weighted_impl, Alg.weightedDet]
    split_ifs with hd
    · simp [hd]
    · simp [hd]

lemma pos_basic_none_iff (s : ℚ → ℚ) (bs : List Meas) (h : 3 ≤ bs.length) :
    Positioning.trilateration_basic s bs = none ↔ |basicDet bs| < detEps := by
  rcases bs with _ | ⟨⟨x1, y1, z1, r1⟩, _ | ⟨⟨x2, y2, z2, r2⟩, _ | ⟨⟨x3, y3, z3, r3⟩, rest⟩⟩⟩
  · simp at h
  · simp at h
  · simp at h
  · simp only [Positioning.trilateration_basic, basicDet]
    split_ifs with hd
    · simp [hd]
    · simp [hd]

lemma pos_weighted_none_iff (inf : ℚ) (s : ℚ → ℚ) (bs : List Meas) (h : 3 ≤ bs.length) :
    Positioning.trilateration_weighted inf s bs = none ↔
      |Positioning.weightedDet bs| < detEps := by
  rcases bs with _ | ⟨⟨x1, y1, z1, r1⟩, _ | ⟨⟨x2, y2, z2, r2⟩, _ | ⟨⟨x3, y3, z3, r3⟩, rest⟩⟩⟩
  · simp at h
  · simp at h
  · simp at h
  · simp only [Positioning.trilateration_weighted, Positioning.weightedDet]
    split_ifs with hd
    · simp [hd]
    · simp [hd]

lemma basic_impl_collinear_none (s : ℚ → ℚ) (d1 d2 d3 : ℚ) :
    Alg._trilateration_basic_impl s
      [(0, 0, 0, d1), (50, 0, 0, d2), (100, 0, 0, d3)] = none := by
  simp only [Alg._trilateration_basic_impl]
  split_ifs with hd
  · rfl
  · exact absurd (by norm_num [detEps]) hd

lemma pos_basic_collinear_none (s : ℚ → ℚ) (d1 d2 d3 : ℚ) :
    Positioning.trilateration_basic s
      [(0, 0, 0, d1), (50, 0, 0, d2), (100, 0, 0, d3)] = none := by
  simp only [Positioning.trilateration_basic]
  split_ifs with hd
  · rfl
  · exact absurd (by norm_num [detEps]) hd

/-- C6: both exact solvers and both weighted solvers return `None` exactly
when the absolute value of the computed 2×2 determinant is below the
`1e-10` threshold, and in particular the collinear anchors
`(0,0,0), (50,0,0), (100,0,0)` always yield `None` from the exact solve. -/
theorem solver_none_iff_det_small :
    ∀ (s : ℚ → ℚ) (inf : ℚ) (ms : List Meas) (wms : List WMeas) (bs : List Meas),
      (3 ≤ ms.length →
        (Alg._trilateration_basic_impl s ms = none ↔ |basicDet ms| < detEps)) ∧
      (3 ≤ wms.length →
        (Alg._trilateration_weighted_impl s wms = none ↔
          |Alg.weightedDet wms| < detEps)) ∧
      (3 ≤ bs.length →
        (Positioning.trilateration_basic s bs = none ↔ |basicDet bs| < detEps)) ∧
      (3 ≤ bs.length →
        (Positioning.trilateration_weighted inf s bs = none ↔
          |Positioning.weightedDet bs| < detEps)) ∧
      (∀ d1 d2 d3 : ℚ,
        Alg._trilateration_basic_impl s
            [(0, 0, 0, d1), (50, 0, 0, d2), (100, 0, 0, d3)] = none ∧
          Positioning.trilateration_basic s
            [(0, 0, 0, d1), (50, 0, 0, d2), (100, 0, 0, d3)] = none) :=
  fun s inf ms wms bs =>
    ⟨basic_impl_none_iff s ms, weighted_impl_none_iff s wms,
     pos_basic_none_iff s bs, pos_weighted_none_iff inf s bs,
     fun d1 d2 d3 =>
       ⟨basic_impl_collinear_none s d1 d2 d3, pos_basic_collinear_none s d1 d2 d3⟩⟩

unseal Rat.add Rat.mul Rat.inv Rat.sub Rat.ofScientific in
/-- C6 witness: the determinant characterization evaluated on concrete
well-formed inputs and on the spec's collinear example. -/
theorem solver_none_iff_det_small_witness :
    (3 ≤ msSample.length ∧
      (Alg._trilateration_basic_impl sqrtSample msSample = none ↔
        |basicDet msSample| < detEps)) ∧
    (Alg._trilateration_weighted_impl sqrtSample wmsSample = none ↔
      |Alg.weightedDet wmsSample| < detEps) ∧
    (Positioning.trilateration_basic sqrtSample bsSample = none ↔
      |basicDet bsSample| < detEps) ∧
    (Positioning.trilateration_weighted 0 sqrtSample bsSample = none ↔
      |Positioning.weightedDet bsSample| < detEps) ∧
    (Alg._trilateration_basic_impl sqrtSample bsCollinear = none ∧
      Positioning.trilateration_basic sqrtSample bsCollinear = none) :=
  ⟨⟨by decide,
    (solver_none_iff_det_small sqrtSample 0 msSample wmsSample bsSample).1 (by decide)⟩,
   (solver_none_iff_det_small sqrtSample 0 msSample wmsSample bsSample).2.1 (by decide),
   (solver_none_iff_det_small sqrtSample 0 msSample wmsSample bsSample).2.2.1 (by decide),
   (solver_none_iff_det_small sqrtSample 0 msSample wmsSample bsSample).2.2.2.1 (by decide),
   (solver_none_iff_det_small sqrtSample 0 msSample wmsSample bsSample).2.2.2.2 10 10 10⟩

/-- C2: with exactly three measurements and strictly positive weights,
whenever both the weighted and the basic 3-point solvers return a result,
the two results agree on x and on y — the weight factors cancel in
Cramer's rule. -/
theorem weighted_equals_basic_xy :
    ∀ (s : ℚ → ℚ) (x1 y1 z1 r1 x2 y2 z2 r2 x3 y3 z3 r3 w1 w2 w3 : ℚ),
      0 < w1 → 0 < w2 → 0 < w3 →
      ∀ rb rw2 : Alg.LocationResult,
        Alg._trilateration_basic_impl s
            [(x1, y1, z1, r1), (x2, y2, z2, r2), (x3, y3, z3, r3)] = some rb →
        Alg._trilateration_weighted_impl s
            [(x1, y1, z1, r1, w1), (x2, y2, z2, r2, w2), (x3, y3, z3, r3, w3)] =
          some rw2 →
        rb.x = rw2.x ∧ rb.y = rw2.y := by
  intro s x1 y1 z1 r1 x2 y2 z2 r2 x3 y3 z3 r3 w1 w2 w3 hw1 hw2 hw3 rb rw2 hb hw
  simp only [Alg._trilateration_basic_impl] at hb
  simp only [Alg._trilateration_weighted_impl] at hw
  split_ifs at hb with hdb
  split_ifs at hw with hdw
  have hb' := (Option.some.injEq _ _).mp hb
  have hw' := (Option.some.injEq _ _).mp hw
  subst hb'
  subst hw'
  have hDb : (2 * (x2 - x1)) * (2 * (y3 - y1)) - (2 * (y2 - y1)) * (2 * (x3 - x1)) ≠ 0 := by
    intro hz
    exact hdb (by rw [hz, abs_zero]; exact detEps_pos)
  have hDw : (2 * (x2 - x1) * w2) * (2 * (y3 - y1) * w3) -
      (2 * (y2 - y1) * w2) * (2 * (x3 - x1) * w3) ≠ 0 := by
    intro hz
    exact hdw (by rw [hz, abs_zero]; exact detEps_pos)
  constructor
  · simp only [Alg.LocationResult.new]
    field_simp
    ring
  · simp only [Alg.LocationResult.new]
    field_simp
    ring

unseal Rat.add Rat.mul Rat.inv Rat.sub Rat.ofScientific in
/-- C2 witness: basic and weighted solves on a concrete non-degenerate
triangle with weights `7, 2, 3` agree on x and y. -/
theorem weighted_equals_basic_xy_witness :
    (0 : ℚ) < 7 ∧ (0 : ℚ) < 2 ∧ (0 : ℚ) < 3 ∧
    ((Alg._trilateration_basic_impl sqrtSample msSample).getD dflt).x =
        ((Alg._trilateration_weighted_impl sqrtSample wmsSample).getD dflt).x ∧
      ((Alg._trilateration_basic_impl sqrtSample msSample).getD dflt).y =
        ((Alg._trilateration_weighted_impl sqrtSample wmsSample).getD dflt).y :=
  ⟨by norm_num, by norm_num, by norm_num,
   (weighted_equals_basic_xy sqrtSample 0 0 0 5 10 0 0 5 0 10 0 5 7 2 3
      (by norm_num) (by norm_num) (by norm_num) _ _ (by decide) (by decide)).1,
   (weighted_equals_basic_xy sqrtSample 0 0 0 5 10 0 0 5 0 10 0 5 7 2 3
      (by norm_num) (by norm_num) (by norm_num) _ _ (by decide) (by decide)).2⟩

/- Confidence lemmas. -/

lemma pweight_pos (d : ℚ) : 0 < Positioning.pweight d := by
  unfold Positioning.pweight
  split_ifs with h
  · norm_num
  · have h50 : (50 : ℚ) ≤ d := not_lt.mp h
    exact div_pos one_pos (by nlinarith)

lemma pos_calculate_error_nonneg (s : ℚ → ℚ) (bs : List Meas) (x y : ℚ) :
    0 ≤ Positioning.calculate_error s bs x y := by
  apply div_nonneg _ (Nat.cast_nonneg _)
  apply List.sum_nonneg
  intro a ha
  simp only [List.mem_map] at ha
  obtain ⟨m, hm, rfl⟩ := ha
  exact abs_nonneg _

lemma pos_weighted_error_nonneg (inf : ℚ) (s : ℚ → ℚ) (bs : List WMeas) (x y : ℚ)
    (hw : ∀ m ∈ bs, 0 < m.2.2.2.2) (hne : bs ≠ []) :
    0 ≤ Positioning.calculate_weighted_error inf s bs x y := by
  simp only [Positioning.calculate_weighted_error]
  have htw : 0 < (bs.map (fun m => m.2.2.2.2)).sum := by
    apply List.sum_pos
    · intro a ha
      simp only [List.mem_map] at ha
      obtain ⟨m, hm, rfl⟩ := ha
      exact hw m hm
    · simpa using hne
  rw [if_pos htw]
  apply div_nonneg _ htw.le
  apply List.sum_nonneg
  intro a ha
  simp only [List.mem_map] at ha
  obtain ⟨m, hm, rfl⟩ := ha
  exact mul_nonneg (hw m hm).le (abs_nonneg _)

lemma one_div_conf_nonneg (e : ℚ) (he : 0 ≤ e) : 0 ≤ 1 / (1 + e / 100) := by
  have : (0 : ℚ) < 1 + e / 100 := by positivity
  positivity

lemma basic_impl_conf (s : ℚ → ℚ) (ms : List Meas) (r : Alg.LocationResult)
    (h : Alg._trilateration_basic_impl s ms = some r) :
    r.confidence = clamp01 (1 / (1 + r.error / 100)) := by
  rcases ms with _ | ⟨⟨x1, y1, z1, r1⟩, _ | ⟨⟨x2, y2, z2, r2⟩, _ | ⟨⟨x3, y3, z3, r3⟩, rest⟩⟩⟩
  · exact absurd h (by simp [Alg._trilateration_basic_impl])
  · exact absurd h (by simp [Alg._trilateration_basic_impl])
  · exact absurd h (by simp [Alg._trilateration_basic_impl])
  · simp only [Alg._trilateration_basic_impl] at h
    split_ifs at h with hd
    have h' := (Option.some.injEq _ _).mp h
    subst h'
    exact clamp01_min_one _

lemma weighted_impl_conf (s : ℚ → ℚ) (ms : List WMeas) (r : Alg.LocationResult)
    (h : Alg._trilateration_weighted_impl s ms = some r) :
    r.confidence = clamp01 (1 / (1 + r.error / 100)) := by
  rcases ms with _ | ⟨⟨x1, y1, z1, r1, w1⟩, _ | ⟨⟨x2, y2, z2, r2, w2⟩,
    _ | ⟨⟨x3, y3, z3, r3, w3⟩, rest⟩⟩⟩
  · exact absurd h (by simp [Alg._trilateration_weighted_impl])
  · exact absurd h (by simp [Alg._trilateration_weighted_impl])
  · exact absurd h (by simp [Alg._trilateration_weighted_impl])
  · simp only [Alg._trilateration_weighted_impl] at h
    split_ifs at h with hd
    have h' := (Option.some.injEq _ _).mp h
    subst h'
    exact clamp01_min_one _

lemma ls_impl_conf (s : ℚ → ℚ) (ms : List Meas) (r : Alg.LocationResult)
    (h : Alg._trilateration_least_squares_impl s ms = some r) :
    r.confidence = clamp01 (1 / (1 + r.error / 100)) := by
  simp only [Alg._trilateration_least_squares_impl] at h
  split_ifs at h with hd
  have h' := (Option.some.injEq _ _).mp h
  subst h'
  exact clamp01_min_one _

lemma fuse_conf_mem (rs : List (Alg.LocationResult × ℚ)) (r : Alg.LocationResult)
    (h : Alg.fuse_results rs = some r) :
    0 ≤ r.confidence ∧ r.confidence ≤ 1 := by
  simp only [Alg.fuse_results] at h
  split_ifs at h with h1 h2
  have h' := (Option.some.injEq _ _).mp h
  subst h'
  exact clamp01_mem _

lemma average_conf_mem (seq : List Alg.LocationResult) (r : Alg.LocationResult)
    (h : Alg.average_position seq = some r) :
    0 ≤ r.confidence ∧ r.confidence ≤ 1 := by
  simp only [Alg.average_position] at h
  split_ifs at h with h1
  have h' := (Option.some.injEq _ _).mp h
  subst h'
  exact clamp01_mem _

lemma average_last_conf_mem (seq : List Alg.LocationResult) (n : ℕ)
    (r : Alg.LocationResult) (h : Alg.average_last_n seq n = some r) :
    0 ≤ r.confidence ∧ r.confidence ≤ 1 := by
  simp only [Alg.average_last_n] at h
  split_ifs at h
  all_goals cases (Option.some.injEq _ _).mp h
  all_goals exact clamp01_mem _

lemma pos_basic_conf (s : ℚ → ℚ) (bs : List Meas) (r : Positioning.LocationResult)
    (h : Positioning.trilateration_basic s bs = some r) :
    r.confidence = clamp01 (1 / (1 + r.error / 100)) := by
  rcases bs with _ | ⟨⟨x1, y1, z1, r1⟩, _ | ⟨⟨x2, y2, z2, r2⟩, _ | ⟨⟨x3, y3, z3, r3⟩, rest⟩⟩⟩
  · exact absurd h (by simp [Positioning.trilateration_basic])
  · exact absurd h (by simp [Positioning.trilateration_basic])
  · exact absurd h (by simp [Positioning.trilateration_basic])
  · simp only [Positioning.trilateration_basic] at h
    split_ifs at h with hd
    have h' := (Option.some.injEq _ _).mp h
    subst h'
    exact min_one_eq_clamp01 _ (one_div_conf_nonneg _ (pos_calculate_error_nonneg _ _ _ _))

lemma pos_weighted_conf (inf : ℚ) (s : ℚ → ℚ) (bs : List Meas)
    (r : Positioning.LocationResult)
    (h : Positioning.trilateration_weighted inf s bs = some r) :
    r.confidence = clamp01 (1 / (1 + r.error / 100)) := by
  rcases bs with _ | ⟨⟨x1, y1, z1, r1⟩, _ | ⟨⟨x2, y2, z2, r2⟩, _ | ⟨⟨x3, y3, z3, r3⟩, rest⟩⟩⟩
  · exact absurd h (by simp [Positioning.trilateration_weighted])
  · exact absurd h (by simp [Positioning.trilateration_weighted])
  · exact absurd h (by simp [Positioning.trilateration_weighted])
  · simp only [Positioning.trilateration_weighted] at h
    split_ifs at h with hd
    have h' := (Option.some.injEq _ _).mp h
    subst h'
    apply min_one_eq_clamp01 _ (one_div_conf_nonneg _ _)
    apply pos_weighted_error_nonneg
    · intro m hm
      simp only [List.mem_map] at hm
      obtain ⟨m0, hm0, rfl⟩ := hm
      exact pweight_pos _
    · simp

lemma pos_ls_conf (s : ℚ → ℚ) (bs : List Meas) (r : Positioning.LocationResult)
    (h : Positioning.trilateration_least_squares s bs = some r) :
    r.confidence = clamp01 (1 / (1 + r.error / 100)) := by
  simp only [Positioning.trilateration_least_squares] at h
  split_ifs at h with hl
  rcases hbas : Positioning.trilateration_basic s bs with _ | initial
  · rw [hbas] at h
    exact absurd h (by simp)
  · rw [hbas] at h
    have h' := (Option.some.injEq _ _).mp h
    subst h'
    exact min_one_eq_clamp01 _ (one_div_conf_nonneg _ (pos_calculate_error_nonneg _ _ _ _))

/-- C7: every result any producer returns — the constructor, the three
solvers of the algorithms module, fusion, history averaging, and the three
solvers of the positioning module — carries a confidence in `[0,1]`, and
each trilateration solver derives it as `1/(1 + error/100)` clamped to
`[0,1]` from its own error field. -/
theorem confidence_in_unit_interval :
    ∀ (s : ℚ → ℚ) (inf x y z c e : ℚ) (mth : String) (bc : ℕ)
      (ms : List Meas) (wms : List WMeas) (rs : List (Alg.LocationResult × ℚ))
      (seq : List Alg.LocationResult) (n : ℕ) (bs : List Meas),
      (0 ≤ (Alg.LocationResult.new x y z c e mth bc).confidence ∧
        (Alg.LocationResult.new x y z c e mth bc).confidence ≤ 1) ∧
      (∀ r ∈ Alg._trilateration_basic_impl s ms,
        (0 ≤ r.confidence ∧ r.confidence ≤ 1) ∧
          r.confidence = clamp01 (1 / (1 + r.error / 100))) ∧
      (∀ r ∈ Alg._trilateration_weighted_impl s wms,
        (0 ≤ r.confidence ∧ r.confidence ≤ 1) ∧
          r.confidence = clamp01 (1 / (1 + r.error / 100))) ∧
      (∀ r ∈ Alg._trilateration_least_squares_impl s ms,
        (0 ≤ r.confidence ∧ r.confidence ≤ 1) ∧
          r.confidence = clamp01 (1 / (1 + r.error / 100))) ∧
      (∀ r ∈ Alg.fuse_results rs, 0 ≤ r.confidence ∧ r.confidence ≤ 1) ∧
      (∀ r ∈ Alg.average_position seq, 0 ≤ r.confidence ∧ r.confidence ≤ 1) ∧
      (∀ r ∈ Alg.average_last_n seq n, 0 ≤ r.confidence ∧ r.confidence ≤ 1) ∧
      (∀ r ∈ Positioning.trilateration_basic s bs,
        (0 ≤ r.confidence ∧ r.confidence ≤ 1) ∧
          r.confidence = clamp01 (1 / (1 + r.error / 100))) ∧
      (∀ r ∈ Positioning.trilateration_weighted inf s bs,
        (0 ≤ r.confidence ∧ r.confidence ≤ 1) ∧
          r.confidence = clamp01 (1 / (1 + r.error / 100))) ∧
      (∀ r ∈ Positioning.trilateration_least_squares s bs,
        (0 ≤ r.confidence ∧ r.confidence ≤ 1) ∧
          r.confidence = clamp01 (1 / (1 + r.error / 100))) := by
  intro s inf x y z c e mth bc ms wms rs seq n bs
  refine ⟨clamp01_mem c, ?_, ?_, ?_, ?_, ?_, ?_, ?_, ?_, ?_⟩
  · intro r hr
    rw [Option.mem_def] at hr
    have hc := basic_impl_conf s ms r hr
    exact ⟨hc ▸ clamp01_mem _, hc⟩
  · intro r hr
    rw [Option.mem_def] at hr
    have hc := weighted_impl_conf s wms r hr
    exact ⟨hc ▸ clamp01_mem _, hc⟩
  · intro r hr
    rw [Option.mem_def] at hr
    have hc := ls_impl_conf s ms r hr
    exact ⟨hc ▸ clamp01_mem _, hc⟩
  · intro r hr
    rw [Option.mem_def] at hr
    exact fuse_conf_mem rs r hr
  · intro r hr
    rw [Option.mem_def] at hr
    exact average_conf_mem seq r hr
  · intro r hr
    rw [Option.mem_def] at hr
    exact average_last_conf_mem seq n r hr
  · intro r hr
    rw [Option.mem_def] at hr
    have hc := pos_basic_conf s bs r hr
    exact ⟨hc ▸ clamp01_mem _, hc⟩
  · intro r hr
    rw [Option.mem_def] at hr
    have hc := pos_weighted_conf inf s bs r hr
    exact ⟨hc ▸ clamp01_mem _, hc⟩
  · intro r hr
    rw [Option.mem_def] at hr
    have hc := pos_ls_conf s bs r hr
    exact ⟨hc ▸ clamp01_mem _, hc⟩

set_option maxRecDepth 20000 in
unseal Rat.add Rat.mul Rat.inv Rat.sub Rat.ofScientific in
/-- C7 witness: the bounds evaluated on a concrete result of every
producer (constructor with an out-of-range raw confidence, all six
solvers, fusion and both history averages). -/
theorem confidence_in_unit_interval_witness :
    (0 ≤ (Alg.LocationResult.new 1 2 3 9 4 "m" 3).confidence ∧
      (Alg.LocationResult.new 1 2 3 9 4 "m" 3).confidence ≤ 1) ∧
    (0 ≤ ((Alg._trilateration_basic_impl sqrtSample msSample).getD dflt).confidence ∧
      ((Alg._trilateration_basic_impl sqrtSample msSample).getD dflt).confidence ≤ 1) ∧
    (0 ≤ ((Alg._trilateration_weighted_impl sqrtSample wmsSample).getD dflt).confidence ∧
      ((Alg._trilateration_weighted_impl sqrtSample wmsSample).getD dflt).confidence ≤ 1) ∧
    (0 ≤ ((Alg._trilateration_least_squares_impl sqrtSample msSample).getD dflt).confidence ∧
      ((Alg._trilateration_least_squares_impl sqrtSample msSample).getD dflt).confidence ≤ 1) ∧
    (0 ≤ ((Alg.fuse_results fuseWitnessInput).getD dflt).confidence ∧
      ((Alg.fuse_results fuseWitnessInput).getD dflt).confidence ≤ 1) ∧
    (0 ≤ ((Alg.average_position seqSample).getD dflt).confidence ∧
      ((Alg.average_position seqSample).getD dflt).confidence ≤ 1) ∧
    (0 ≤ ((Alg.average_last_n seqSample 1).getD dflt).confidence ∧
      ((Alg.average_last_n seqSample 1).getD dflt).confidence ≤ 1) ∧
    (0 ≤ ((Positioning.trilateration_basic sqrtSample bsSample).getD pdflt).confidence ∧
      ((Positioning.trilateration_basic sqrtSample bsSample).getD pdflt).confidence ≤ 1) ∧
    (0 ≤ ((Positioning.trilateration_weighted 0 sqrtSample bsSample).getD pdflt).confidence ∧
      ((Positioning.trilateration_weighted 0 sqrtSample bsSample).getD pdflt).confidence ≤ 1) ∧
    (0 ≤ ((Positioning.trilateration_least_squares sqrtSample bsSample).getD pdflt).confidence ∧
      ((Positioning.trilateration_least_squares sqrtSample bsSample).getD pdflt).confidence ≤ 1) := by
  have T := confidence_in_unit_interval sqrtSample 0 1 2 3 9 4 "m" 3 msSample
    wmsSample fuseWitnessInput seqSample 1 bsSample
  exact ⟨T.1,
    (T.2.1 _ (Option.mem_def.mpr (by decide))).1,
    (T.2.2.1 _ (Option.mem_def.mpr (by decide))).1,
    (T.2.2.2.1 _ (Option.mem_def.mpr (by decide))).1,
    T.2.2.2.2.1 _ (Option.mem_def.mpr (by decide)),
    T.2.2.2.2.2.1 _ (Option.mem_def.mpr (by decide)),
    T.2.2.2.2.2.2.1 _ (Option.mem_def.mpr (by decide)),
    (T.2.2.2.2.2.2.2.1 _ (Option.mem_def.mpr (by decide))).1,
    (T.2.2.2.2.2.2.2.2.1 _ (Option.mem_def.mpr (by decide))).1,
    (T.2.2.2.2.2.2.2.2.2 _ (Option.mem_def.mpr (by decide))).1⟩

/- Least-squares structure lemmas. -/

lemma ls_impl_centroid (s : ℚ → ℚ) (ms : List Meas) (h : 3 ≤ ms.length) :
    (Alg._trilateration_least_squares_impl s ms).map (fun r => (r.x, r.y, r.z)) =
      some ((ms.map (fun m => m.1)).sum / (ms.length : ℚ),
        (ms.map (fun m => m.2.1)).sum / (ms.length : ℚ),
        (ms.map (fun m => m.2.2.1)).sum / (ms.length : ℚ)) := by
  simp only [Alg._trilateration_least_squares_impl]
  rw [if_neg (by omega)]
  simp [Alg.LocationResult.new]

lemma pos_ls_none_of_basic_none (s : ℚ → ℚ) (bs : List Meas)
    (h : Positioning.trilateration_basic s bs = none) :
    Positioning.trilateration_least_squares s bs = none := by
  simp only [Positioning.trilateration_least_squares]
  split_ifs with hl
  · rfl
  · rw [h]

/-- C1 (amended): the algorithms-module N-point solver returns, for every
input of at least 3 measurements (collinear anchors included), exactly the
anchors' centroid — it performs no correction steps; the positioning-module
N-point solver seeds from the exact 3-point solve and propagates its
failure: when that solve is unavailable (degenerate determinant, e.g. the
collinear anchors (0,0,0), (50,0,0), (100,0,0)), it returns no result
rather than falling back to the centroid. -/
theorem least_squares_seed_and_centroid :
    ∀ (s : ℚ → ℚ) (ms bs : List Meas),
      (3 ≤ ms.length →
        (Alg._trilateration_least_squares_impl s ms).map (fun r => (r.x, r.y, r.z)) =
          some ((ms.map (fun m => m.1)).sum / (ms.length : ℚ),
            (ms.map (fun m => m.2.1)).sum / (ms.length : ℚ),
            (ms.map (fun m => m.2.2.1)).sum / (ms.length : ℚ))) ∧
      (Positioning.trilateration_basic s bs = none →
        Positioning.trilateration_least_squares s bs = none) ∧
      (∀ d1 d2 d3 : ℚ,
        Positioning.trilateration_least_squares s
          [(0, 0, 0, d1), (50, 0, 0, d2), (100, 0, 0, d3)] = none) :=
  fun s ms bs =>
    ⟨ls_impl_centroid s ms, pos_ls_none_of_basic_none s bs,
     fun d1 d2 d3 =>
       pos_ls_none_of_basic_none s _ (pos_basic_collinear_none s d1 d2 d3)⟩

unseal Rat.add Rat.mul Rat.inv Rat.sub Rat.ofScientific in
/-- C1 counterexample: on the spec's collinear anchors the positioning
module's least-squares solver returns no result — contradicting the claim
that the solver still returns a result by falling back to the centroid. -/
theorem least_squares_collinear_counterexample :
    Positioning.trilateration_least_squares sqrtSample bsCollinear = none := by
  decide

unseal Rat.add Rat.mul Rat.inv Rat.sub Rat.ofScientific in
/-- C1 witness: the centroid equality on a concrete 3-measurement input and
the `None` propagation on the concrete collinear input. -/
theorem least_squares_seed_and_centroid_witness :
    (Alg._trilateration_least_squares_impl sqrtSample msSample).map
        (fun r => (r.x, r.y, r.z)) =
      some ((msSample.map (fun m => m.1)).sum / (msSample.length : ℚ),
        (msSample.map (fun m => m.2.1)).sum / (msSample.length : ℚ),
        (msSample.map (fun m => m.2.2.1)).sum / (msSample.length : ℚ)) ∧
    Positioning.trilateration_least_squares sqrtSample bsCollinear = none :=
  ⟨(least_squares_seed_and_centroid sqrtSample msSample bsCollinear).1 (by decide),
   (least_squares_seed_and_centroid sqrtSample msSample bsCollinear).2.1 (by decide)⟩

/-- C5 witness: the round trip at `r = -60` on the concrete model with
`b = -40 ≠ 0`. -/
theorem rssi_distance_round_trip_witness :
    mSample.b ≠ 0 ∧
      Rssi.distance_to_rssi mSample (Rssi.rssi_to_distance_f64 mSample (-60)) =
        (((-60 : ℝ)) : WithBot ℝ) :=
  ⟨by norm_num [mSample, Rssi.log_distance],
   (rssi_distance_round_trip mSample (-60)
      (by norm_num [mSample, Rssi.log_distance])).1⟩

end Blunav
